import Mathlib

/-!
Verification of the Quark2d-PIXI debug renderer (`src/render/Render.ts`) and its
pointer controller (`src/mouse/Mouse.ts`).

Shallow embedding notes:
* Numeric state (positions, scales, deltas, alphas) is modelled over `ℚ`; the
  source's floating-point arithmetic on these paths is plain field arithmetic.
  The circle-sampling geometry of `createCircleSprite` uses `Math.sin`/`Math.cos`
  and is therefore modelled over `ℝ` in a separate definition.
* The JS `Map<number, PIXI.Graphics>` is modelled as a function `ℕ → Option Sprite`;
  `Map.get/set/delete` become application / pointwise update.  A `PIXI.Graphics`
  object is modelled by its display attributes (`alpha`, `visible`, position,
  rotation, `zIndex`); the drawn path geometry is modelled separately
  (`createCircleSpritePath`) since only the circle path is needed by the claims.
* `stage.addChild`/`removeChild` are modelled by a list of sprite identifiers.
* A thrown JS exception is modelled by a `Bool` flag (`true` = threw) paired with
  the state as mutated up to the throwing statement, since JS mutations performed
  before a throw persist.
-/

/-- A 2D vector (quark2d `Vector`). -/
structure Vec where
  x : ℚ
  y : ℚ
deriving DecidableEq, Repr

/-- The two sleeping states the renderer inspects (`SleepingState.AWAKE` /
`SleepingState.SLEEPING` in the `switch` of `Render.shapes`). -/
inductive SleepingState where
  | AWAKE
  | SLEEPING
deriving DecidableEq, Repr

/-- quark2d's `ShapeType` is a numeric enum; the renderer only compares it for
equality against three members, so the enum is modelled as `ℕ` with three
distinguished values. -/
def ShapeType.CIRCLE : ℕ := 0

/-- Enum value for convex shapes. -/
def ShapeType.CONVEX : ℕ := 1

/-- Enum value for edge shapes. -/
def ShapeType.EDGE : ℕ := 2

/-- A shape kind is recognized when it is one of the three values the `switch`
in `Render.createShapeSprite` dispatches on. -/
abbrev ShapeType.recognized (t : ℕ) : Prop :=
  t = ShapeType.CIRCLE ∨ t = ShapeType.CONVEX ∨ t = ShapeType.EDGE

/-- The fields of a quark2d `Shape` the renderer reads. -/
structure Shape where
  id : ℕ
  type : ℕ
  isSensor : Bool
  radius : ℚ
  position : Vec
deriving DecidableEq, Repr

/-- The fields of a quark2d `Body` the renderer reads. -/
structure Body where
  center : Vec
  angle : ℚ
  sleepState : SleepingState
  shapes : List Shape
deriving DecidableEq, Repr

/-- The fields of a quark2d `Joint` the renderer reads for sprite bookkeeping. -/
structure Joint where
  id : ℕ
  type : ℕ
deriving DecidableEq, Repr

/-- The simulation collections the renderer enumerates (`engine.world`). -/
structure World where
  bodies : List Body
  joints : List Joint
deriving DecidableEq, Repr

/-- Display attributes of a `PIXI.Graphics` sprite (drawn geometry is modelled
separately). -/
structure Sprite where
  alpha : ℚ
  visible : Bool
  posX : ℚ
  posY : ℚ
  rotation : ℚ
  zIndex : ℕ
deriving DecidableEq, Repr

/-- The eight overlay toggles (`Render.options`). -/
structure Options where
  showSleeping : Bool
  showCollisions : Bool
  showJoints : Bool
  showSensors : Bool
  showAABBs : Bool
  showPositions : Bool
  showStatus : Bool
  showBroadphase : Bool
deriving DecidableEq, Repr

/-- The toggle defaults applied by the constructor for an empty options object. -/
def defaultOptions : Options :=
  { showSleeping := true, showCollisions := false, showJoints := false,
    showSensors := true, showAABBs := false, showPositions := false,
    showStatus := false, showBroadphase := false }

/-- The identifier-to-sprite map (`Render.sprites : Map<number, PIXI.Graphics>`),
modelled extensionally. -/
def SpriteMap : Type := ℕ → Option Sprite

/-- `Map.set`. -/
def mapSet (m : SpriteMap) (k : ℕ) (v : Sprite) : SpriteMap :=
  fun q => if q = k then some v else m q

/-- `Map.delete`. -/
def mapDelete (m : SpriteMap) (k : ℕ) : SpriteMap :=
  fun q => if q = k then none else m q

/-- The empty sprite map. -/
def emptySprites : SpriteMap := fun _ => none

/-- The mutable state of `Render` that the verified operations touch. -/
structure RenderState where
  sprites : SpriteMap
  children : List ℕ
  options : Options
  scale : ℚ
  realScale : ℚ
  translate : Vec
  canvasWidth : ℚ
  canvasHeight : ℚ

/-- `Render.setScale`: stores the requested scale and recomputes the effective
scale as `scale * min(canvas.width, canvas.height) / 1500`. -/
def Render.setScale (st : RenderState) (scale : ℚ) : RenderState :=
  { st with
    scale := scale
    realScale := scale * min st.canvasWidth st.canvasHeight / 1500 }

/-- The parts of the `Render` constructor relevant here: canvas size, initial
scale routed through `setScale`, zero translation, default toggles, empty
sprite map. -/
def Render.init (w h scale0 : ℚ) : RenderState :=
  Render.setScale
    { sprites := emptySprites, children := [], options := defaultOptions,
      scale := scale0, realScale := scale0, translate := ⟨0, 0⟩,
      canvasWidth := w, canvasHeight := h }
    scale0

/-- `Render.mouseWheel`: on a wheel event with vertical delta `deltaY`,
calls `setScale(scale - deltaY * scale / 1000)`. -/
def Render.mouseWheel (st : RenderState) (deltaY : ℚ) : RenderState :=
  Render.setScale st (st.scale - deltaY * st.scale / 1000)

/-- The pointer state owned by `Mouse`. -/
structure MouseState where
  pressed : Bool
  leftButtonPressed : Bool
  rightButtonPressed : Bool
  wheelButtonPressed : Bool
  localPosition : Vec
  position : Vec
  localMovement : Vec
  movement : Vec
  scroll : Vec
deriving DecidableEq, Repr

/-- Initial pointer state (all flags false, all vectors zero). -/
def Mouse.initState : MouseState :=
  { pressed := false, leftButtonPressed := false, rightButtonPressed := false,
    wheelButtonPressed := false, localPosition := ⟨0, 0⟩, position := ⟨0, 0⟩,
    localMovement := ⟨0, 0⟩, movement := ⟨0, 0⟩, scroll := ⟨0, 0⟩ }

/-- `Mouse.updatePosition`: world position from local position via the current
transform (the source divides by `render.scale`). -/
def Mouse.updatePosition (r : RenderState) (m : MouseState) : MouseState :=
  { m with position :=
      ⟨(m.localPosition.x - r.canvasWidth / 2) / r.scale - r.translate.x,
       (m.localPosition.y - r.canvasHeight / 2) / r.scale - r.translate.y⟩ }

/-- `Mouse.updateMovement`: world movement from the local movement delta (the
source divides by `render.scale`, not `render.realScale`). -/
def Mouse.updateMovement (r : RenderState) (m : MouseState) : MouseState :=
  { m with movement :=
      ⟨m.localMovement.x / r.scale, m.localMovement.y / r.scale⟩ }

/-- `Mouse.mouseMove`: records the element-relative offset as local position,
recomputes world position, records the raw device delta (`movementX/Y`) as
local movement and recomputes world movement. -/
def Mouse.mouseMove (r : RenderState) (m : MouseState)
    (offsetX offsetY movementX movementY : ℚ) : MouseState :=
  let m1 := { m with localPosition := ⟨offsetX, offsetY⟩ }
  let m2 := Mouse.updatePosition r m1
  let m3 := { m2 with localMovement := ⟨movementX, movementY⟩ }
  Mouse.updateMovement r m3

/-- `Render.mouseMove` (the renderer's subscriber to the controller's
`mouse-move` event): pans by the world-space movement delta while the
secondary button flag is set. -/
def Render.mouseMove (st : RenderState) (m : MouseState) : RenderState :=
  if m.rightButtonPressed then
    { st with translate :=
        ⟨st.translate.x + m.movement.x, st.translate.y + m.movement.y⟩ }
  else st

/-- C2: the claim states the recorded world-space movement delta equals the raw
device movement delta divided by the effective scale. COUNTEREXAMPLE: with an
800×600 canvas at requested scale 30, the effective scale is
`30 * 600 / 1500 = 12`, but a pointer-move with raw delta (12, 0) records
movement `12 / 30 = 2/5`, not `12 / 12 = 1`. -/
theorem c2_counterexample :
    ¬ ((Mouse.mouseMove (Render.init 800 600 30) Mouse.initState 0 0 12 0).movement =
      ⟨12 / (Render.init 800 600 30).realScale,
       0 / (Render.init 800 600 30).realScale⟩) := by
  intro h
  have hx := congrArg Vec.x h
  norm_num [Mouse.mouseMove, Mouse.updateMovement, Mouse.updatePosition,
    Render.init, Render.setScale, Mouse.initState, min_def] at hx

/-- C2 (amended): for every pointer-move event, the recorded world-space
movement delta equals the raw device movement delta divided by the requested
zoom scale (`render.scale`); this coincides with the claimed division by the
effective scale only when `min(viewport width, viewport height) = 1500`. -/
theorem c2_movement_divided_by_requested_scale (r : RenderState) (m : MouseState)
    (offsetX offsetY movementX movementY : ℚ) :
    (Mouse.mouseMove r m offsetX offsetY movementX movementY).movement =
      ⟨movementX / r.scale, movementY / r.scale⟩ := by
  rfl

/-- C3: a wheel event with scroll delta `d` at requested scale `s` yields
requested scale `s - d*s/1000`; the effective scale is recomputed as the new
requested scale times `min(width, height) / 1500`; in particular `d = -240` at
`s = 30` yields requested scale `37.2`. -/
theorem c3_wheel_zoom (st : RenderState) (d : ℚ) :
    (Render.mouseWheel st d).scale = st.scale - d * st.scale / 1000 ∧
    (Render.mouseWheel st d).realScale =
      (st.scale - d * st.scale / 1000) * min st.canvasWidth st.canvasHeight / 1500 ∧
    (st.scale = 30 → d = -240 → (Render.mouseWheel st d).scale = 186/5) := by
  refine ⟨by unfold Render.mouseWheel Render.setScale; rfl,
    by unfold Render.mouseWheel Render.setScale; rfl, ?_⟩
  intro hs hd
  simp only [Render.mouseWheel, Render.setScale, hs, hd]
  norm_num

/-- C3 witness: the wheel formula evaluated at scale 30, delta -240 on the
default-constructed renderer gives 37.2. -/
theorem c3_wheel_zoom_witness :
    (Render.init 800 600 30).scale = 30 ∧
    (Render.mouseWheel (Render.init 800 600 30) (-240)).scale = 186/5 :=
  ⟨by unfold Render.init Render.setScale; rfl,
   (c3_wheel_zoom (Render.init 800 600 30) (-240)).2.2
     (by unfold Render.init Render.setScale; rfl) rfl⟩

/-- C4: a pointer-move processed while the secondary button flag is set adds
exactly the world-space movement delta to the translation, with no scaling. -/
theorem c4_pan_adds_movement (st : RenderState) (m : MouseState)
    (h : m.rightButtonPressed = true) :
    (Render.mouseMove st m).translate =
      ⟨st.translate.x + m.movement.x, st.translate.y + m.movement.y⟩ := by
  simp [Render.mouseMove, h]

/-- Pointer state during a secondary-button drag whose world-space movement
delta is (3, -2); used to witness C4. -/
def panMouse : MouseState :=
  { Mouse.initState with rightButtonPressed := true, movement := ⟨3, -2⟩ }

/-- C4 witness: a secondary-button drag with world-space movement (3, -2)
increases the translation by exactly (3, -2). -/
theorem c4_pan_adds_movement_witness :
    panMouse.rightButtonPressed = true ∧
    (Render.mouseMove (Render.init 800 600 30) panMouse).translate =
      ⟨(Render.init 800 600 30).translate.x + 3,
       (Render.init 800 600 30).translate.y + (-2)⟩ :=
  ⟨by rfl, c4_pan_adds_movement (Render.init 800 600 30) panMouse (by rfl)⟩

/-- Display attributes shared by the sprites built by `createCircleSprite`,
`createConvexSprite` and `createEdgeSprite`: a fresh `PIXI.Graphics` (alpha 1,
visible) with `zIndex = 1`.  The drawn path differs per kind and is modelled
separately (`createCircleSpritePath` for the circle case the claims need). -/
def newShapeSprite : Sprite :=
  { alpha := 1, visible := true, posX := 0, posY := 0, rotation := 0, zIndex := 1 }

/-- `Render.createCircleSprite`, restricted to its display attributes. -/
def Render.createCircleSprite (_circle : Shape) : Sprite := newShapeSprite

/-- `Render.createConvexSprite`, restricted to its display attributes. -/
def Render.createConvexSprite (_convex : Shape) : Sprite := newShapeSprite

/-- `Render.createEdgeSprite`, restricted to its display attributes. -/
def Render.createEdgeSprite (_edge : Shape) : Sprite := newShapeSprite

/-- `Render.createShapeSprite`: dispatches on the shape kind and throws
(`Except.error`) on any unrecognized kind (the `default:` branch). -/
def Render.createShapeSprite (sh : Shape) : Except Unit Sprite :=
  if sh.type = ShapeType.CIRCLE then Except.ok (Render.createCircleSprite sh)
  else if sh.type = ShapeType.CONVEX then Except.ok (Render.createConvexSprite sh)
  else if sh.type = ShapeType.EDGE then Except.ok (Render.createEdgeSprite sh)
  else Except.error ()

/-- The per-shape mutations of one iteration of `Render.shapes`: the sleeping
`switch` (when `showSleeping`), the sensor visibility/alpha handling, then the
position/rotation update from the owning body. -/
def shapeFrameSprite (opts : Options) (b : Body) (sh : Shape) (s : Sprite) : Sprite :=
  let s1 :=
    if opts.showSleeping then
      match b.sleepState with
      | SleepingState.AWAKE => { s with alpha := 1 }
      | SleepingState.SLEEPING => { s with alpha := 1/2 }
    else s
  let s2 :=
    if sh.isSensor then
      if opts.showSensors then { s1 with alpha := 3/10, visible := true }
      else { s1 with visible := false }
    else s1
  { s2 with posX := b.center.x, posY := b.center.y, rotation := b.angle }

/-- One iteration of the `Render.shapes` loop for shape `sh` of body `b`:
look up the sprite, lazily create it (adding it to the stage and the map;
`createShapeSprite` may throw), then apply the per-frame mutations.  The `Bool`
is the thrown-exception flag. -/
def Render.shapesStep (st : RenderState) (b : Body) (sh : Shape) : RenderState × Bool :=
  match st.sprites sh.id with
  | some s =>
    ({ st with sprites := mapSet st.sprites sh.id (shapeFrameSprite st.options b sh s) },
     false)
  | none =>
    match Render.createShapeSprite sh with
    | Except.error _ => (st, true)
    | Except.ok ns =>
      let st1 := { st with
        children := st.children ++ [sh.id]
        sprites := mapSet st.sprites sh.id ns }
      ({ st1 with sprites := mapSet st1.sprites sh.id (shapeFrameSprite st.options b sh ns) },
       false)

/-- The `(body, shape)` pairs enumerated by the nested loops over
`engine.world.bodies` and `body.shapes`. -/
def World.shapePairs (w : World) : List (Body × Shape) :=
  w.bodies.foldr (fun b acc => (b.shapes.map fun s => (b, s)) ++ acc) []

/-- The shape identifiers of a pair list. -/
def shapeIds (pairs : List (Body × Shape)) : List ℕ :=
  pairs.map fun p => p.2.id

/-- `Render.shapes`: the full per-frame shapes pass; stops at the first thrown
exception, keeping the mutations made so far (JS exception semantics). -/
def Render.shapesRun : RenderState → List (Body × Shape) → RenderState × Bool
  | st, [] => (st, false)
  | st, (b, sh) :: rest =>
    match Render.shapesStep st b sh with
    | (st1, true) => (st1, true)
    | (st1, false) => Render.shapesRun st1 rest

/-- Display attributes of the `PIXI.Graphics` created for a joint by
`Render.joints` (`zIndex = 2`). -/
def newJointSprite : Sprite :=
  { alpha := 1, visible := true, posX := 0, posY := 0, rotation := 0, zIndex := 2 }

/-- One iteration of the `Render.joints` loop: look up the sprite, lazily
create it; the subsequent `clear`-and-redraw touches only the drawn geometry,
not the display attributes or the map. -/
def Render.jointsStep (st : RenderState) (j : Joint) : RenderState :=
  match st.sprites j.id with
  | some _ => st
  | none =>
    { st with
      children := st.children ++ [j.id]
      sprites := mapSet st.sprites j.id newJointSprite }

/-- `Render.joints`: the per-frame joints pass. -/
def Render.jointsRun : RenderState → List Joint → RenderState
  | st, [] => st
  | st, j :: rest => Render.jointsRun (Render.jointsStep st j) rest

/-- `Render.update`, restricted to its effect on the sprite map and the stage
children: the shapes pass, then (when `showJoints`) the joints pass.  The
remaining passes (collisions, AABBs, positions, status, broadphase) draw into
the shared scratch `graphics` object and never touch the sprite map or the
per-entity stage children. -/
def Render.update (st : RenderState) (w : World) : RenderState × Bool :=
  match Render.shapesRun st (World.shapePairs w) with
  | (st1, true) => (st1, true)
  | (st1, false) =>
    if st1.options.showJoints then (Render.jointsRun st1 w.joints, false)
    else (st1, false)

/-- `Render.removeShape` (the `remove-body` notification handler calls this for
each of the body's shapes): detach the sprite from the stage and delete its
map entry. -/
def Render.removeShape (st : RenderState) (sh : Shape) : RenderState :=
  { st with
    children := st.children.erase sh.id
    sprites := mapDelete st.sprites sh.id }

/-- `Render.removeBody`: removes every shape of the removed body. -/
def Render.removeBody (st : RenderState) (b : Body) : RenderState :=
  b.shapes.foldl Render.removeShape st

/-- `Render.removejoint` (the `remove-joint` notification handler). -/
def Render.removejoint (st : RenderState) (j : Joint) : RenderState :=
  { st with
    children := st.children.erase j.id
    sprites := mapDelete st.sprites j.id }

/-- C6: sprite creation for a shape whose kind is outside
{circle, convex, edge} throws, and never throws for the three recognized
kinds. -/
theorem c6_unrecognized_shape_kind_throws (sh : Shape) :
    (sh.type ≠ ShapeType.CIRCLE → sh.type ≠ ShapeType.CONVEX →
      sh.type ≠ ShapeType.EDGE → Render.createShapeSprite sh = Except.error ()) ∧
    (ShapeType.recognized sh.type →
      ∃ s, Render.createShapeSprite sh = Except.ok s) := by
  constructor
  · intro h1 h2 h3
    simp [Render.createShapeSprite, h1, h2, h3]
  · intro h
    rcases h with h | h | h <;>
      simp [Render.createShapeSprite, h, ShapeType.CIRCLE, ShapeType.CONVEX, ShapeType.EDGE]

/-- A shape with an enum value outside the recognized set (used to witness C6). -/
def badShape : Shape :=
  { id := 1, type := 7, isSensor := false, radius := 1, position := ⟨0, 0⟩ }

/-- A circle shape (used in concrete scenarios). -/
def circleShape : Shape :=
  { id := 0, type := ShapeType.CIRCLE, isSensor := false, radius := 1/2, position := ⟨0, 0⟩ }

/-- C6 witness: a shape of kind 7 makes `createShapeSprite` throw, and a circle
shape is created without error. -/
theorem c6_unrecognized_shape_kind_throws_witness :
    (badShape.type ≠ ShapeType.CIRCLE ∧ badShape.type ≠ ShapeType.CONVEX ∧
      badShape.type ≠ ShapeType.EDGE) ∧
    Render.createShapeSprite badShape = Except.error () ∧
    (∃ s, Render.createShapeSprite circleShape = Except.ok s) :=
  ⟨by decide,
   (c6_unrecognized_shape_kind_throws badShape).1 (by decide) (by decide) (by decide),
   (c6_unrecognized_shape_kind_throws circleShape).2 (Or.inl rfl)⟩

/-- `Map.set` preserves presence of every key. -/
theorem mapSet_isSome (m : SpriteMap) (k q : ℕ) (v : Sprite)
    (h : (m q).isSome = true) : ((mapSet m k v) q).isSome = true := by
  unfold mapSet
  by_cases hq : q = k <;> simp [hq, h]

/-- One shapes-pass iteration never drops a sprite-map entry. -/
theorem Render.shapesStep_sprites_isSome (st : RenderState) (b : Body) (sh : Shape)
    (k : ℕ) (h : (st.sprites k).isSome = true) :
    (((Render.shapesStep st b sh).1).sprites k).isSome = true := by
  unfold Render.shapesStep
  cases hm : st.sprites sh.id with
  | some s => exact mapSet_isSome _ _ _ _ h
  | none =>
    cases hc : Render.createShapeSprite sh with
    | error e => exact h
    | ok ns => exact mapSet_isSome _ _ _ _ (mapSet_isSome _ _ _ _ h)

/-- One shapes-pass iteration never detaches a stage child. -/
theorem Render.shapesStep_children_mono (st : RenderState) (b : Body) (sh : Shape)
    (k : ℕ) (h : k ∈ st.children) :
    k ∈ ((Render.shapesStep st b sh).1).children := by
  unfold Render.shapesStep
  cases hm : st.sprites sh.id with
  | some s => exact h
  | none =>
    cases hc : Render.createShapeSprite sh with
    | error e => exact h
    | ok ns => exact List.mem_append_left _ h

/-- The shapes pass never drops a sprite-map entry, even when it throws. -/
theorem Render.shapesRun_sprites_isSome (pairs : List (Body × Shape)) :
    ∀ (st : RenderState) (k : ℕ), (st.sprites k).isSome = true →
      (((Render.shapesRun st pairs).1).sprites k).isSome = true := by
  induction pairs with
  | nil => intro st k h; exact h
  | cons p rest ih =>
    intro st k h
    obtain ⟨b, sh⟩ := p
    have hstep := Render.shapesStep_sprites_isSome st b sh k h
    simp only [Render.shapesRun]
    rcases hp : Render.shapesStep st b sh with ⟨st1, threw⟩
    rw [hp] at hstep
    cases threw with
    | true => exact hstep
    | false => exact ih st1 k hstep

/-- The shapes pass never detaches a stage child. -/
theorem Render.shapesRun_children_mono (pairs : List (Body × Shape)) :
    ∀ (st : RenderState) (k : ℕ), k ∈ st.children →
      k ∈ ((Render.shapesRun st pairs).1).children := by
  induction pairs with
  | nil => intro st k h; exact h
  | cons p rest ih =>
    intro st k h
    obtain ⟨b, sh⟩ := p
    have hstep := Render.shapesStep_children_mono st b sh k h
    simp only [Render.shapesRun]
    rcases hp : Render.shapesStep st b sh with ⟨st1, threw⟩
    rw [hp] at hstep
    cases threw with
    | true => exact hstep
    | false => exact ih st1 k hstep

/-- One joints-pass iteration never drops a sprite-map entry. -/
theorem Render.jointsStep_sprites_isSome (st : RenderState) (j : Joint) (k : ℕ)
    (h : (st.sprites k).isSome = true) :
    ((Render.jointsStep st j).sprites k).isSome = true := by
  unfold Render.jointsStep
  cases hm : st.sprites j.id with
  | some s => exact h
  | none => exact mapSet_isSome _ _ _ _ h

/-- One joints-pass iteration never detaches a stage child. -/
theorem Render.jointsStep_children_mono (st : RenderState) (j : Joint) (k : ℕ)
    (h : k ∈ st.children) : k ∈ (Render.jointsStep st j).children := by
  unfold Render.jointsStep
  cases hm : st.sprites j.id with
  | some s => exact h
  | none => exact List.mem_append_left _ h

/-- The joints pass never drops a sprite-map entry. -/
theorem Render.jointsRun_sprites_isSome (joints : List Joint) :
    ∀ (st : RenderState) (k : ℕ), (st.sprites k).isSome = true →
      ((Render.jointsRun st joints).sprites k).isSome = true := by
  induction joints with
  | nil => intro st k h; exact h
  | cons j rest ih =>
    intro st k h
    exact ih _ k (Render.jointsStep_sprites_isSome st j k h)

/-- The joints pass never detaches a stage child. -/
theorem Render.jointsRun_children_mono (joints : List Joint) :
    ∀ (st : RenderState) (k : ℕ), k ∈ st.children →
      k ∈ (Render.jointsRun st joints).children := by
  induction joints with
  | nil => intro st k h; exact h
  | cons j rest ih =>
    intro st k h
    exact ih _ k (Render.jointsStep_children_mono st j k h)

/-- C1: the per-frame update pass (shapes/joints scan) never deletes an entry
from the identifier-to-sprite map and never detaches a sprite from the stage —
after any `update` call the keys present before are still present — while a
key is deleted (and its sprite detached) exactly by the remove-shape /
remove-joint notification handlers, each deleting precisely its own entity's
key. -/
theorem c1_update_never_deletes (st : RenderState) (w : World) (k : ℕ) :
    ((st.sprites k).isSome = true →
      (((Render.update st w).1).sprites k).isSome = true) ∧
    (k ∈ st.children → k ∈ ((Render.update st w).1).children) ∧
    (∀ sh : Shape, (Render.removeShape st sh).sprites k =
      if k = sh.id then none else st.sprites k) ∧
    (∀ j : Joint, (Render.removejoint st j).sprites k =
      if k = j.id then none else st.sprites k) := by
  refine ⟨?_, ?_, fun sh => rfl, fun j => rfl⟩
  · intro h
    unfold Render.update
    have h1 := Render.shapesRun_sprites_isSome (World.shapePairs w) st k h
    rcases hp : Render.shapesRun st (World.shapePairs w) with ⟨st1, threw⟩
    rw [hp] at h1
    cases threw with
    | true => exact h1
    | false =>
      cases hj : st1.options.showJoints with
      | true => simpa [hj] using Render.jointsRun_sprites_isSome w.joints st1 k h1
      | false => simpa [hj] using h1
  · intro h
    unfold Render.update
    have h1 := Render.shapesRun_children_mono (World.shapePairs w) st k h
    rcases hp : Render.shapesRun st (World.shapePairs w) with ⟨st1, threw⟩
    rw [hp] at h1
    cases threw with
    | true => exact h1
    | false =>
      cases hj : st1.options.showJoints with
      | true => simpa [hj] using Render.jointsRun_children_mono w.joints st1 k h1
      | false => simpa [hj] using h1

/-- A renderer state with one live sprite entry (key 5) on the stage, used to
witness C1. -/
def c1State : RenderState :=
  { Render.init 800 600 30 with
    sprites := mapSet emptySprites 5 newShapeSprite
    children := [5] }

/-- C1 witness: with a sprite registered under key 5, an `update` over an empty
world keeps the entry and the stage child, and removing a shape with id 5
deletes exactly that entry. -/
theorem c1_update_never_deletes_witness :
    ((c1State.sprites 5).isSome = true ∧ 5 ∈ c1State.children) ∧
    (((Render.update c1State ⟨[], []⟩).1).sprites 5).isSome = true ∧
    5 ∈ ((Render.update c1State ⟨[], []⟩).1).children ∧
    (Render.removeShape c1State badShape).sprites 5 =
      (if 5 = badShape.id then none else c1State.sprites 5) :=
  ⟨⟨rfl, by simp [c1State]⟩,
   (c1_update_never_deletes c1State ⟨[], []⟩ 5).1 rfl,
   (c1_update_never_deletes c1State ⟨[], []⟩ 5).2.1 (by simp [c1State]),
   (c1_update_never_deletes c1State ⟨[], []⟩ 5).2.2.1 badShape⟩

/-- The sprite mutation applied by `setShowSleeping(false)`. -/
def setAlphaFull (s : Sprite) : Sprite := { s with alpha := 1 }

/-- The sprite mutation applied by `setShowSensors(true)`. -/
def setVisibleTrue (s : Sprite) : Sprite := { s with visible := true }

/-- The loop shared by `setShowSleeping(false)` and `setShowSensors(true)`:
for every body's shape, mutate the existing sprite with `f`, skipping shapes
without a map entry. -/
def spriteLoop (f : Sprite → Sprite) : List (Body × Shape) → SpriteMap → SpriteMap
  | [], m => m
  | (_, sh) :: rest, m =>
    match m sh.id with
    | none => spriteLoop f rest m
    | some s => spriteLoop f rest (mapSet m sh.id (f s))

/-- `Render.setShowSleeping`: stores the flag; when disabling, resets every
live shape's sprite opacity to full. -/
def Render.setShowSleeping (st : RenderState) (w : World) (value : Bool) : RenderState :=
  let st1 := { st with options := { st.options with showSleeping := value } }
  if value then st1
  else { st1 with sprites := spriteLoop setAlphaFull (World.shapePairs w) st1.sprites }

/-- `Render.setShowSensors`: stores the flag; when enabling, marks every live
shape's sprite visible. -/
def Render.setShowSensors (st : RenderState) (w : World) (value : Bool) : RenderState :=
  let st1 := { st with options := { st.options with showSensors := value } }
  if value then
    { st1 with sprites := spriteLoop setVisibleTrue (World.shapePairs w) st1.sprites }
  else st1

/-- Pointwise description of `spriteLoop` for an idempotent mutation. -/
theorem spriteLoop_eq (f : Sprite → Sprite) (hf : ∀ s, f (f s) = f s) :
    ∀ (pairs : List (Body × Shape)) (m : SpriteMap),
      spriteLoop f pairs m =
        fun k => if k ∈ shapeIds pairs then (m k).map f else m k := by
  intro pairs
  induction pairs with
  | nil =>
    intro m
    funext k
    simp [spriteLoop, shapeIds]
  | cons p rest ih =>
    intro m
    obtain ⟨b, sh⟩ := p
    funext k
    simp only [spriteLoop]
    cases hm : m sh.id with
    | none =>
      rw [ih m]
      by_cases h1 : k = sh.id
      · subst h1
        simp [shapeIds, List.mem_cons, hm]
      · simp only [shapeIds, List.map_cons]
        by_cases h2 : k ∈ List.map (fun p => p.2.id) rest
        · rw [if_pos h2, if_pos (List.mem_cons_of_mem _ h2)]
        · rw [if_neg h2, if_neg (fun hc => by
            rcases List.mem_cons.mp hc with h | h
            · exact h1 h
            · exact h2 h)]
    | some s =>
      change spriteLoop f rest (mapSet m sh.id (f s)) k = _
      rw [ih (mapSet m sh.id (f s))]
      by_cases h1 : k = sh.id
      · subst h1
        simp [shapeIds, List.mem_cons, mapSet, hm, hf]
      · simp only [shapeIds, List.map_cons, mapSet, if_neg h1]
        by_cases h2 : k ∈ List.map (fun p => p.2.id) rest
        · rw [if_pos h2, if_pos (List.mem_cons_of_mem _ h2)]
        · rw [if_neg h2, if_neg (fun hc => by
            rcases List.mem_cons.mp hc with h | h
            · exact h1 h
            · exact h2 h)]

/-- `spriteLoop` with an idempotent mutation is itself idempotent. -/
theorem spriteLoop_idem (f : Sprite → Sprite) (hf : ∀ s, f (f s) = f s)
    (pairs : List (Body × Shape)) (m : SpriteMap) :
    spriteLoop f pairs (spriteLoop f pairs m) = spriteLoop f pairs m := by
  simp only [spriteLoop_eq f hf]
  funext k
  by_cases h : k ∈ shapeIds pairs
  · cases hm : m k <;> simp [h, hm, hf]
  · simp [h]

/-- Field-wise extensionality for the renderer state. -/
theorem RenderState.fieldsEq {a b : RenderState} (h1 : a.sprites = b.sprites)
    (h2 : a.children = b.children) (h3 : a.options = b.options)
    (h4 : a.scale = b.scale) (h5 : a.realScale = b.realScale)
    (h6 : a.translate = b.translate) (h7 : a.canvasWidth = b.canvasWidth)
    (h8 : a.canvasHeight = b.canvasHeight) : a = b := by
  cases a
  cases b
  simp only at h1 h2 h3 h4 h5 h6 h7 h8
  subst h1 h2 h3 h4 h5 h6 h7 h8
  rfl

/-- One shapes-pass iteration leaves other keys untouched. -/
theorem Render.shapesStep_sprites_untouched (st : RenderState) (b : Body) (sh : Shape)
    (k : ℕ) (hk : k ≠ sh.id) :
    ((Render.shapesStep st b sh).1).sprites k = st.sprites k := by
  unfold Render.shapesStep
  cases hm : st.sprites sh.id with
  | some s => simp [mapSet, hk]
  | none =>
    cases hc : Render.createShapeSprite sh with
    | error e => rfl
    | ok ns => simp [mapSet, hk]

/-- One shapes-pass iteration does not change the toggle set. -/
theorem Render.shapesStep_options (st : RenderState) (b : Body) (sh : Shape) :
    ((Render.shapesStep st b sh).1).options = st.options := by
  unfold Render.shapesStep
  cases hm : st.sprites sh.id with
  | some s => rfl
  | none =>
    cases hc : Render.createShapeSprite sh with
    | error e => rfl
    | ok ns => rfl

/-- The shapes pass leaves keys outside the scanned shape ids untouched. -/
theorem Render.shapesRun_sprites_untouched (pairs : List (Body × Shape)) :
    ∀ (st : RenderState) (k : ℕ), k ∉ shapeIds pairs →
      ((Render.shapesRun st pairs).1).sprites k = st.sprites k := by
  induction pairs with
  | nil => intro st k _; rfl
  | cons p rest ih =>
    intro st k h
    obtain ⟨b, sh⟩ := p
    simp only [shapeIds, List.map_cons, List.mem_cons, not_or] at h
    obtain ⟨hk, hrest⟩ := h
    have hstep := Render.shapesStep_sprites_untouched st b sh k hk
    simp only [Render.shapesRun]
    rcases hp : Render.shapesStep st b sh with ⟨st1, threw⟩
    rw [hp] at hstep
    cases threw with
    | true => exact hstep
    | false => rw [ih st1 k hrest]; exact hstep

/-- A recognized shape kind is created as a fresh shape sprite. -/
theorem Render.createShapeSprite_recognized (sh : Shape)
    (h : ShapeType.recognized sh.type) :
    Render.createShapeSprite sh = Except.ok newShapeSprite := by
  rcases h with h | h | h <;>
    simp [Render.createShapeSprite, h, ShapeType.CIRCLE, ShapeType.CONVEX, ShapeType.EDGE,
      Render.createCircleSprite, Render.createConvexSprite, Render.createEdgeSprite]

/-- One shapes-pass iteration on a recognized kind does not throw and stores,
at the shape's key, the per-frame mutation of some base sprite. -/
theorem Render.shapesStep_sets (st : RenderState) (b : Body) (sh : Shape)
    (hty : ShapeType.recognized sh.type) :
    (Render.shapesStep st b sh).2 = false ∧
    ∃ s0, ((Render.shapesStep st b sh).1).sprites sh.id =
      some (shapeFrameSprite st.options b sh s0) := by
  unfold Render.shapesStep
  cases hm : st.sprites sh.id with
  | some s => exact ⟨rfl, ⟨s, by simp [mapSet]⟩⟩
  | none =>
    rw [Render.createShapeSprite_recognized sh hty]
    exact ⟨rfl, ⟨newShapeSprite, by simp [mapSet]⟩⟩

/-- With pairwise-distinct shape ids and recognized kinds, the shapes pass does
not throw and leaves, at each scanned shape's key, exactly the per-frame
mutation (under the pass's options) of some base sprite. -/
theorem Render.shapesRun_frame (pairs : List (Body × Shape)) :
    ∀ st : RenderState, (shapeIds pairs).Nodup →
      (∀ p ∈ pairs, ShapeType.recognized p.2.type) →
      (Render.shapesRun st pairs).2 = false ∧
      ∀ p ∈ pairs, ∃ s0 : Sprite,
        ((Render.shapesRun st pairs).1).sprites p.2.id =
          some (shapeFrameSprite st.options p.1 p.2 s0) := by
  induction pairs with
  | nil =>
    intro st _ _
    exact ⟨rfl, fun p hp => absurd hp (List.not_mem_nil p)⟩
  | cons q rest ih =>
    intro st hnd hty
    obtain ⟨b, sh⟩ := q
    simp only [shapeIds, List.map_cons, List.nodup_cons] at hnd
    obtain ⟨hhead, hrest⟩ := hnd
    obtain ⟨hnothrow, s0, hat⟩ :=
      Render.shapesStep_sets st b sh (hty (b, sh) (List.mem_cons_self _ _))
    have hopts := Render.shapesStep_options st b sh
    simp only [Render.shapesRun]
    rcases hp : Render.shapesStep st b sh with ⟨st1, threw⟩
    rw [hp] at hnothrow hat hopts
    simp only at hnothrow hat hopts
    subst hnothrow
    have ihres := ih st1 hrest (fun p hp => hty p (List.mem_cons_of_mem _ hp))
    refine ⟨ihres.1, ?_⟩
    intro p hp
    rcases List.mem_cons.mp hp with heq | hmem
    · subst heq
      refine ⟨s0, ?_⟩
      rw [Render.shapesRun_sprites_untouched rest st1 sh.id hhead, hat]
    · obtain ⟨s1, hs1⟩ := ihres.2 p hmem
      exact ⟨s1, by rw [hs1, hopts]⟩

/-- Per-frame opacity of a non-sensor shape with sleeping-visualization on:
1 when the body is awake, 0.5 when sleeping. -/
theorem shapeFrameSprite_alpha_nonsensor (opts : Options) (b : Body) (sh : Shape)
    (s : Sprite) (hsl : opts.showSleeping = true) (hns : sh.isSensor = false) :
    (shapeFrameSprite opts b sh s).alpha =
      if b.sleepState = SleepingState.AWAKE then 1 else 1/2 := by
  unfold shapeFrameSprite
  cases hb : b.sleepState <;> simp [hsl, hns, hb]

/-- Per-frame attributes of a sensor shape with sensor-visualization on:
fixed opacity 0.3, visible. -/
theorem shapeFrameSprite_sensor_shown (opts : Options) (b : Body) (sh : Shape)
    (s : Sprite) (hs : sh.isSensor = true) (ho : opts.showSensors = true) :
    (shapeFrameSprite opts b sh s).alpha = 3/10 ∧
    (shapeFrameSprite opts b sh s).visible = true := by
  unfold shapeFrameSprite
  cases hsl : opts.showSleeping <;> cases hb : b.sleepState <;> simp [hs, ho, hsl, hb]

/-- Per-frame visibility of a sensor shape with sensor-visualization off:
hidden. -/
theorem shapeFrameSprite_sensor_hidden (opts : Options) (b : Body) (sh : Shape)
    (s : Sprite) (hs : sh.isSensor = true) (ho : opts.showSensors = false) :
    (shapeFrameSprite opts b sh s).visible = false := by
  unfold shapeFrameSprite
  cases hsl : opts.showSleeping <;> cases hb : b.sleepState <;> simp [hs, ho, hsl, hb]

/-- Pointwise description of `setShowSleeping(false)`. -/
theorem Render.setShowSleeping_false_sprites (st : RenderState) (w : World) (k : ℕ) :
    (Render.setShowSleeping st w false).sprites k =
      if k ∈ shapeIds (World.shapePairs w) then (st.sprites k).map setAlphaFull
      else st.sprites k := by
  unfold Render.setShowSleeping
  simp only [Bool.false_eq_true, if_false]
  rw [spriteLoop_eq setAlphaFull (fun s => rfl)]

/-- `setShowSleeping(false)` applied twice equals it applied once. -/
theorem Render.setShowSleeping_false_idem (st : RenderState) (w : World) :
    Render.setShowSleeping (Render.setShowSleeping st w false) w false =
      Render.setShowSleeping st w false := by
  refine RenderState.fieldsEq ?_ rfl rfl rfl rfl rfl rfl rfl
  funext k
  by_cases h : k ∈ shapeIds (World.shapePairs w)
  · simp only [Render.setShowSleeping_false_sprites, if_pos h]
    cases st.sprites k <;> rfl
  · simp only [Render.setShowSleeping_false_sprites, if_neg h]

/-- Pointwise description of `setShowSensors(true)`. -/
theorem Render.setShowSensors_true_sprites (st : RenderState) (w : World) (k : ℕ) :
    (Render.setShowSensors st w true).sprites k =
      if k ∈ shapeIds (World.shapePairs w) then (st.sprites k).map setVisibleTrue
      else st.sprites k := by
  unfold Render.setShowSensors
  simp only [if_true]
  rw [spriteLoop_eq setVisibleTrue (fun s => rfl)]

/-- A sensor circle shape (key 2). -/
def sensorShape : Shape :=
  { id := 2, type := ShapeType.CIRCLE, isSensor := true, radius := 1/2, position := ⟨0, 0⟩ }

/-- An awake body owning only the sensor shape. -/
def sensorBody : Body :=
  { center := ⟨0, 0⟩, angle := 0, sleepState := SleepingState.AWAKE, shapes := [sensorShape] }

/-- A world consisting of the awake sensor body. -/
def sensorWorld : World := { bodies := [sensorBody], joints := [] }

/-- Renderer state with the sensor shape's sprite already live (default toggles:
sleeping and sensor visualization on). -/
def c9State : RenderState :=
  { Render.init 800 600 30 with
    sprites := mapSet emptySprites 2 newShapeSprite
    children := [2] }

/-- C9: the claim states that after re-enabling sleeping-visualization the next
frame update sets each sprite's opacity from its body's sleep state (1 when
awake).  COUNTEREXAMPLE: the awake sensor body's sprite ends the next frame at
the fixed sensor opacity 0.3, not 1, because the sensor branch of the frame
pass overwrites the sleeping opacity. -/
theorem c9_counterexample :
    sensorBody.sleepState = SleepingState.AWAKE ∧
    ((Render.shapesRun
        (Render.setShowSleeping
          (Render.setShowSleeping c9State sensorWorld false) sensorWorld true)
        (World.shapePairs sensorWorld)).1).sprites 2 =
      some { alpha := 3/10, visible := true, posX := 0, posY := 0,
             rotation := 0, zIndex := 1 } ∧
    (3/10 : ℚ) ≠ 1 := by
  refine ⟨rfl, rfl, by norm_num⟩

/-- C9 (amended): disabling sleeping-visualization resets every live shape's
sprite opacity to full regardless of sleep state, and doing it again produces
the same state; after re-enabling, the next frame update sets each non-sensor
shape's sprite opacity from its body's current sleep state (1 awake, 0.5
sleeping), while a sensor shape's sprite instead gets the fixed sensor opacity
0.3 (and is made visible) when sensor-visualization is on, and is hidden when
it is off. -/
theorem c9_sleeping_toggle_amended (st : RenderState) (w : World)
    (hnd : (shapeIds (World.shapePairs w)).Nodup)
    (hty : ∀ p ∈ World.shapePairs w, ShapeType.recognized p.2.type) :
    (∀ p ∈ World.shapePairs w, ∀ s, st.sprites p.2.id = some s →
      (Render.setShowSleeping st w false).sprites p.2.id =
        some { s with alpha := 1 }) ∧
    Render.setShowSleeping (Render.setShowSleeping st w false) w false =
      Render.setShowSleeping st w false ∧
    ((Render.shapesRun
        (Render.setShowSleeping (Render.setShowSleeping st w false) w true)
        (World.shapePairs w)).2 = false ∧
      ∀ p ∈ World.shapePairs w, ∃ s : Sprite,
        ((Render.shapesRun
            (Render.setShowSleeping (Render.setShowSleeping st w false) w true)
            (World.shapePairs w)).1).sprites p.2.id = some s ∧
        (p.2.isSensor = false →
          s.alpha = if p.1.sleepState = SleepingState.AWAKE then 1 else 1/2) ∧
        (p.2.isSensor = true → st.options.showSensors = true →
          s.alpha = 3/10 ∧ s.visible = true) ∧
        (p.2.isSensor = true → st.options.showSensors = false →
          s.visible = false)) := by
  refine ⟨?_, Render.setShowSleeping_false_idem st w, ?_⟩
  · intro p hp s hs
    have hmem : p.2.id ∈ shapeIds (World.shapePairs w) :=
      List.mem_map_of_mem _ hp
    rw [Render.setShowSleeping_false_sprites, if_pos hmem, hs]
    rfl
  · obtain ⟨hnothrow, hchar⟩ :=
      Render.shapesRun_frame (World.shapePairs w)
        (Render.setShowSleeping (Render.setShowSleeping st w false) w true) hnd hty
    refine ⟨hnothrow, ?_⟩
    intro p hp
    obtain ⟨s0, hs0⟩ := hchar p hp
    refine ⟨_, hs0, ?_, ?_, ?_⟩
    · intro hns
      exact shapeFrameSprite_alpha_nonsensor _ p.1 p.2 s0 rfl hns
    · intro hsens ho
      exact shapeFrameSprite_sensor_shown _ p.1 p.2 s0 hsens ho
    · intro hsens ho
      exact shapeFrameSprite_sensor_hidden _ p.1 p.2 s0 hsens ho

/-- A non-sensor circle body/world used to witness C9 and C10. -/
def c9Body : Body :=
  { center := ⟨1, 2⟩, angle := 0, sleepState := SleepingState.AWAKE, shapes := [circleShape] }

/-- World with the single awake non-sensor circle body. -/
def c9World : World := { bodies := [c9Body], joints := [] }

/-- C9 witness: the amended theorem applied to the one-circle world. -/
theorem c9_sleeping_toggle_amended_witness :
    (shapeIds (World.shapePairs c9World)).Nodup ∧
    (∀ p ∈ World.shapePairs c9World, ShapeType.recognized p.2.type) ∧
    Render.setShowSleeping
        (Render.setShowSleeping (Render.init 800 600 30) c9World false) c9World false =
      Render.setShowSleeping (Render.init 800 600 30) c9World false :=
  ⟨by decide, by decide,
   (c9_sleeping_toggle_amended (Render.init 800 600 30) c9World
      (by decide) (by decide)).2.1⟩

/-- C10: enabling sensor-visualization immediately marks every live shape's
sprite visible (sensor or not) changing no other field and touching no other
map entry; disabling it changes no sprite at all — sensor sprites are hidden
only by the next frame update. -/
theorem c10_set_show_sensors (st : RenderState) (w : World) :
    (∀ p ∈ World.shapePairs w, ∀ s, st.sprites p.2.id = some s →
      (Render.setShowSensors st w true).sprites p.2.id =
        some { s with visible := true }) ∧
    (∀ k, k ∉ shapeIds (World.shapePairs w) →
      (Render.setShowSensors st w true).sprites k = st.sprites k) ∧
    (Render.setShowSensors st w false).sprites = st.sprites ∧
    (Render.setShowSensors st w false).children = st.children ∧
    ((shapeIds (World.shapePairs w)).Nodup →
      (∀ p ∈ World.shapePairs w, ShapeType.recognized p.2.type) →
      ∀ p ∈ World.shapePairs w, p.2.isSensor = true →
        ∃ s, ((Render.shapesRun (Render.setShowSensors st w false)
            (World.shapePairs w)).1).sprites p.2.id = some s ∧
          s.visible = false) := by
  refine ⟨?_, ?_, rfl, rfl, ?_⟩
  · intro p hp s hs
    have hmem : p.2.id ∈ shapeIds (World.shapePairs w) :=
      List.mem_map_of_mem _ hp
    rw [Render.setShowSensors_true_sprites, if_pos hmem, hs]
    rfl
  · intro k hk
    rw [Render.setShowSensors_true_sprites, if_neg hk]
  · intro hnd hty p hp hsens
    obtain ⟨hnothrow, hchar⟩ :=
      Render.shapesRun_frame (World.shapePairs w)
        (Render.setShowSensors st w false) hnd hty
    obtain ⟨s0, hs0⟩ := hchar p hp
    exact ⟨_, hs0, shapeFrameSprite_sensor_hidden _ p.1 p.2 s0 hsens rfl⟩

/-- Renderer state with the sensor shape's sprite live, used to witness C10. -/
def c10State : RenderState :=
  { Render.init 800 600 30 with
    sprites := mapSet emptySprites 2 newShapeSprite
    children := [2] }

/-- C10 witness: on the sensor world, enabling sensor-visualization marks the
live sprite visible, disabling changes no sprite, and the next frame after
disabling hides the sensor sprite. -/
theorem c10_set_show_sensors_witness :
    ((sensorBody, sensorShape) ∈ World.shapePairs sensorWorld ∧
      c10State.sprites sensorShape.id = some newShapeSprite ∧
      (shapeIds (World.shapePairs sensorWorld)).Nodup ∧
      sensorShape.isSensor = true) ∧
    (Render.setShowSensors c10State sensorWorld true).sprites sensorShape.id =
      some { newShapeSprite with visible := true } ∧
    (Render.setShowSensors c10State sensorWorld false).sprites = c10State.sprites ∧
    (∃ s, ((Render.shapesRun (Render.setShowSensors c10State sensorWorld false)
        (World.shapePairs sensorWorld)).1).sprites sensorShape.id = some s ∧
      s.visible = false) :=
  ⟨⟨by simp [World.shapePairs, sensorWorld, sensorBody], rfl, by decide, rfl⟩,
   (c10_set_show_sensors c10State sensorWorld).1 (sensorBody, sensorShape)
     (by simp [World.shapePairs, sensorWorld, sensorBody]) newShapeSprite rfl,
   (c10_set_show_sensors c10State sensorWorld).2.2.1,
   (c10_set_show_sensors c10State sensorWorld).2.2.2.2 (by decide) (by decide)
     (sensorBody, sensorShape) (by simp [World.shapePairs, sensorWorld, sensorBody]) rfl⟩

/-- The seven event listeners the `Mouse` constructor registers: four on the
canvas (mouse down/up/move, wheel) and three on the canvas's parent element
(touch start/end/move). -/
inductive ListenerId where
  | mousedownL
  | mouseupL
  | mousemoveL
  | wheelL
  | touchstartL
  | touchendL
  | touchmoveL
deriving DecidableEq, Repr

/-- `addEventListener`: registering an already-registered listener is a no-op
(DOM semantics). -/
def addEventListener (subs : List ListenerId) (l : ListenerId) : List ListenerId :=
  if l ∈ subs then subs else subs ++ [l]

/-- `removeEventListener`: unregistering, a no-op when absent (DOM semantics). -/
def removeEventListener (subs : List ListenerId) (l : ListenerId) : List ListenerId :=
  subs.filter (fun x => x ≠ l)

/-- The subscriptions made by the `Mouse` constructor: the four mouse/wheel
listeners on the canvas, and — when the canvas has a parent element — the three
touch listeners on the parent. -/
def Mouse.installListeners (hasParent : Bool) : List ListenerId :=
  let s := addEventListener [] ListenerId.mousedownL
  let s := addEventListener s ListenerId.mouseupL
  let s := addEventListener s ListenerId.mousemoveL
  let s := addEventListener s ListenerId.wheelL
  if hasParent then
    let s := addEventListener s ListenerId.touchstartL
    let s := addEventListener s ListenerId.touchendL
    addEventListener s ListenerId.touchmoveL
  else s

/-- `Mouse.removeListeners`: unregisters the four canvas listeners — and only
those; the three touch listeners are not removed by the source. -/
def Mouse.removeListeners (subs : List ListenerId) : List ListenerId :=
  let s := removeEventListener subs ListenerId.mousedownL
  let s := removeEventListener s ListenerId.mouseupL
  let s := removeEventListener s ListenerId.mousemoveL
  removeEventListener s ListenerId.wheelL

/-- C7: the claim states `removeListeners` unregisters every subscription made
at construction, including the touch subscriptions.  COUNTEREXAMPLE: after
construction with a parent element, `removeListeners` leaves the touch-start
subscription (and the other two touch subscriptions) registered. -/
theorem c7_counterexample :
    ListenerId.touchstartL ∈ Mouse.removeListeners (Mouse.installListeners true) ∧
    Mouse.removeListeners (Mouse.installListeners true) ≠ [] := by
  decide

/-- C7 (amended): `removeListeners` unregisters exactly the four mouse/wheel
subscriptions made on the canvas at construction; the touch start/end/move
subscriptions made on the parent element remain registered; calling it again
(any number of times) leaves the subscription set unchanged, and the operation
touches no other controller state. -/
theorem c7_remove_listeners_amended :
    (∀ hp : Bool,
      Mouse.removeListeners
          (Mouse.removeListeners (Mouse.installListeners hp)) =
        Mouse.removeListeners (Mouse.installListeners hp)) ∧
    ListenerId.mousedownL ∉ Mouse.removeListeners (Mouse.installListeners true) ∧
    ListenerId.mouseupL ∉ Mouse.removeListeners (Mouse.installListeners true) ∧
    ListenerId.mousemoveL ∉ Mouse.removeListeners (Mouse.installListeners true) ∧
    ListenerId.wheelL ∉ Mouse.removeListeners (Mouse.installListeners true) ∧
    Mouse.removeListeners (Mouse.installListeners true) =
      [ListenerId.touchstartL, ListenerId.touchendL, ListenerId.touchmoveL] ∧
    Mouse.removeListeners (Mouse.installListeners false) = [] := by
  refine ⟨?_, by decide, by decide, by decide, by decide, by decide, by decide⟩
  intro hp
  cases hp <;> decide

/-- A touch point's client coordinates. -/
structure TouchPoint where
  clientX : ℚ
  clientY : ℚ
deriving DecidableEq, Repr

/-- The parts of a `TouchEvent` the handlers read: the touch lists, whether the
event target is the renderer's canvas, the canvas's bounding client rectangle
and its intrinsic offset size. -/
structure TouchEvt where
  touches : List TouchPoint
  changedTouches : List TouchPoint
  targetIsCanvas : Bool
  rectX : ℚ
  rectY : ℚ
  rectW : ℚ
  rectH : ℚ
  offsetW : ℚ
  offsetH : ℚ
deriving DecidableEq, Repr

/-- The client-to-local remapping applied to the first touch point. -/
def touchLocalX (e : TouchEvt) (t : TouchPoint) : ℚ :=
  (t.clientX - e.rectX) / e.rectW * e.offsetW

/-- The client-to-local remapping, vertical component. -/
def touchLocalY (e : TouchEvt) (t : TouchPoint) : ℚ :=
  (t.clientY - e.rectY) / e.rectH * e.offsetH

/-- `Mouse.touchStart`: inside the target guard, sets the pressed and primary
flags (and the secondary flag for a multi-touch) before reading
`event.touches[0]`; with an empty touch list that read throws, leaving the
flags already mutated (`true` = threw). -/
def Mouse.touchStart (r : RenderState) (hasParent : Bool) (m : MouseState)
    (e : TouchEvt) : MouseState × Bool :=
  if hasParent && e.targetIsCanvas then
    let m1 := { m with pressed := true, leftButtonPressed := true }
    let m2 :=
      if e.touches.length > 1 then { m1 with rightButtonPressed := true } else m1
    match e.touches with
    | [] => (m2, true)
    | t :: _ =>
      let m3 := { m2 with localPosition := ⟨touchLocalX e t, touchLocalY e t⟩ }
      (Mouse.updatePosition r m3, false)
  else (m, false)

/-- `Mouse.touchEnd`: inside the target guard, clears the pressed and button
flags before reading `event.changedTouches[0]`, which throws on an empty
changed-touches list. -/
def Mouse.touchEnd (r : RenderState) (hasParent : Bool) (m : MouseState)
    (e : TouchEvt) : MouseState × Bool :=
  if hasParent && e.targetIsCanvas then
    let m1 := { m with
      pressed := false
      leftButtonPressed := false
      rightButtonPressed := false }
    match e.changedTouches with
    | [] => (m1, true)
    | t :: _ =>
      let m2 := { m1 with localPosition := ⟨touchLocalX e t, touchLocalY e t⟩ }
      (Mouse.updatePosition r m2, false)
  else (m, false)

/-- `Mouse.touchMove`: inside the target guard, reads `event.touches[0]` before
any state change, so an empty touch list throws with the state untouched;
otherwise records the local movement as the difference from the previous local
position, then updates the positions. -/
def Mouse.touchMove (r : RenderState) (hasParent : Bool) (m : MouseState)
    (e : TouchEvt) : MouseState × Bool :=
  if hasParent && e.targetIsCanvas then
    match e.touches with
    | [] => (m, true)
    | t :: _ =>
      let ox := touchLocalX e t
      let oy := touchLocalY e t
      let m1 := { m with
        localMovement := ⟨ox - m.localPosition.x, oy - m.localPosition.y⟩ }
      let m2 := Mouse.updateMovement r m1
      let m3 := { m2 with localPosition := ⟨ox, oy⟩ }
      (Mouse.updatePosition r m3, false)
  else (m, false)

/-- A touch event carrying no touch points, targeted at the canvas. -/
def emptyTouchEvt : TouchEvt :=
  { touches := [], changedTouches := [], targetIsCanvas := true,
    rectX := 0, rectY := 0, rectW := 800, rectH := 600,
    offsetW := 800, offsetH := 600 }

/-- C8: the claim states a malformed touch event (missing/empty touch list)
raises no error and leaves the pointer state completely unchanged.
COUNTEREXAMPLE: an empty-touch-list touch-start throws (reading
`event.touches[0]`) and has already set the pressed and primary-button flags. -/
theorem c8_counterexample :
    (Mouse.touchStart (Render.init 800 600 30) true Mouse.initState emptyTouchEvt).2
      = true ∧
    (Mouse.touchStart (Render.init 800 600 30) true Mouse.initState emptyTouchEvt).1
      ≠ Mouse.initState := by
  constructor
  · rfl
  · intro h
    have hp := congrArg MouseState.pressed h
    simp [Mouse.touchStart, emptyTouchEvt, Mouse.initState] at hp

/-- C8 (amended): the touch handlers do not guard against a missing/empty touch
list: on such an event (targeted at the canvas, with a parent element present)
each handler throws when reading the first touch; touch-move throws with the
pointer state completely unchanged, while touch-start has already set the
pressed/primary flags and touch-end has already cleared the pressed and button
flags. -/
theorem c8_malformed_touch_throws (r : RenderState) (hp : Bool) (m : MouseState)
    (e : TouchEvt) (hguard : (hp && e.targetIsCanvas) = true)
    (htouch : e.touches = []) :
    Mouse.touchStart r hp m e =
      ({ m with pressed := true, leftButtonPressed := true }, true) ∧
    Mouse.touchMove r hp m e = (m, true) ∧
    (e.changedTouches = [] →
      Mouse.touchEnd r hp m e =
        ({ m with
            pressed := false
            leftButtonPressed := false
            rightButtonPressed := false }, true)) := by
  refine ⟨?_, ?_, ?_⟩
  · simp [Mouse.touchStart, hguard, htouch]
  · simp [Mouse.touchMove, hguard, htouch]
  · intro hch
    simp [Mouse.touchEnd, hguard, hch]

/-- C8 witness: the amended theorem at the concrete empty touch event. -/
theorem c8_malformed_touch_throws_witness :
    ((true && emptyTouchEvt.targetIsCanvas) = true ∧ emptyTouchEvt.touches = []) ∧
    Mouse.touchStart (Render.init 800 600 30) true Mouse.initState emptyTouchEvt =
      ({ Mouse.initState with pressed := true, leftButtonPressed := true }, true) ∧
    Mouse.touchMove (Render.init 800 600 30) true Mouse.initState emptyTouchEvt =
      (Mouse.initState, true) :=
  ⟨⟨rfl, rfl⟩,
   (c8_malformed_touch_throws (Render.init 800 600 30) true Mouse.initState
      emptyTouchEvt rfl rfl).1,
   (c8_malformed_touch_throws (Render.init 800 600 30) true Mouse.initState
      emptyTouchEvt rfl rfl).2.1⟩

/-- The polygon path drawn by `Render.createCircleSprite`: `count = 100 * radius`
samples of the circle, point `i` at angle `i / count * π * 2`, scaled by the
radius and offset by the circle's position relative to the owning body's
center; the `for (i = 0; i < count; ++i)` loop over the real-valued bound
`count` executes `⌈count⌉` times. -/
noncomputable def createCircleSpritePath (radius cX cY pX pY : ℝ) : List (ℝ × ℝ) :=
  (List.range ⌈(100 : ℝ) * radius⌉₊).map fun (i : ℕ) =>
    (Real.sin ((i : ℝ) / ((100 : ℝ) * radius) * Real.pi * 2) * radius - cX + pX,
     Real.cos ((i : ℝ) / ((100 : ℝ) * radius) * Real.pi * 2) * radius - cY + pY)

/-- C5: for a circle of radius `r > 0` the emitted closed polygon has
`⌈100 r⌉` points (vertex count proportional to the radius), and every point
lies at distance exactly `r` from the circle's center expressed in body-local
space (`position - body.center`). -/
theorem c5_circle_polygon (radius cX cY pX pY : ℝ) (hr : 0 < radius) :
    (createCircleSpritePath radius cX cY pX pY).length = ⌈(100 : ℝ) * radius⌉₊ ∧
    ∀ p ∈ createCircleSpritePath radius cX cY pX pY,
      Real.sqrt ((p.1 - (pX - cX)) ^ 2 + (p.2 - (pY - cY)) ^ 2) = radius := by
  constructor
  · simp only [createCircleSpritePath, List.length_map, List.length_range]
  · intro p hp
    simp only [createCircleSpritePath, List.mem_map, List.mem_range] at hp
    obtain ⟨i, hi, rfl⟩ := hp
    dsimp only
    have h1 : Real.sin ((i : ℝ) / ((100 : ℝ) * radius) * Real.pi * 2) * radius
        - cX + pX - (pX - cX)
        = Real.sin ((i : ℝ) / ((100 : ℝ) * radius) * Real.pi * 2) * radius := by
      ring
    have h2 : Real.cos ((i : ℝ) / ((100 : ℝ) * radius) * Real.pi * 2) * radius
        - cY + pY - (pY - cY)
        = Real.cos ((i : ℝ) / ((100 : ℝ) * radius) * Real.pi * 2) * radius := by
      ring
    rw [h1, h2]
    have key : (Real.sin ((i : ℝ) / ((100 : ℝ) * radius) * Real.pi * 2) * radius) ^ 2
        + (Real.cos ((i : ℝ) / ((100 : ℝ) * radius) * Real.pi * 2) * radius) ^ 2
        = radius ^ 2 := by
      have hsc := Real.sin_sq_add_cos_sq ((i : ℝ) / ((100 : ℝ) * radius) * Real.pi * 2)
      nlinarith [hsc]
    rw [key, Real.sqrt_sq hr.le]

/-- C5 witness: the radius-0.5 circle centered at the body's center yields 50
points, each at distance 0.5 from the origin of body-local space. -/
theorem c5_circle_polygon_witness :
    (0 : ℝ) < 1/2 ∧
    ((createCircleSpritePath (1/2) 0 0 0 0).length = ⌈(100 : ℝ) * (1/2)⌉₊ ∧
      ∀ p ∈ createCircleSpritePath (1/2) 0 0 0 0,
        Real.sqrt ((p.1 - ((0 : ℝ) - 0)) ^ 2 + (p.2 - ((0 : ℝ) - 0)) ^ 2) = 1/2) ∧
    ⌈(100 : ℝ) * (1/2)⌉₊ = 50 :=
  ⟨by norm_num, c5_circle_polygon (1/2) 0 0 0 0 (by norm_num), by norm_num⟩
